import Mathlib

/-!
Verification of the Django Issue Hub pipeline (fetch_issues.py and
build_site.py): a shallow embedding of the data model and the
classification, aggregation and rendering operations, together with
theorems about its behaviour.

Conventions of the embedding:
* Python dictionaries holding records of a fixed schema become structures;
  a key read with dict.get and a default becomes an Option field read with
  getD; a key read by direct subscript becomes a required field.
* The network is a parameter: the per-repository responses are an input
  function, and the datetime library is an Env parameter (current time
  string and the is-new test on a created_at string, which models
  fromisoformat comparison against now minus LOOKBACK_DAYS_NEW, returning
  false on a ValueError).
* Machine integers of the source are modelled as Int or Nat; no overflow
  is involved anywhere in the scripts.
-/

/-- Python str.lower, restricted to the per-character case mapping
(identical to the source for the ASCII keyword comparisons involved). -/
def pyLower (s : String) : String := String.mk (s.toList.map Char.toLower)

/-- Python str.replace for a one-character pattern and replacement, the
only form the scripts use (newline to space, capital T to space). -/
def pyReplaceChar (s : String) (a b : Char) : String :=
  String.mk (s.toList.map (fun ch => if ch = a then b else ch))

/-- Python string slicing s[:n]: the first n characters. -/
def pySlice (s : String) (n : Nat) : String := String.mk (s.toList.take n)

/-- Containment of one character list inside another, used to model the
Python substring test x in y. -/
def charsContain (needle : List Char) : List Char → Bool
  | [] => needle.isEmpty
  | c :: cs => needle.isPrefixOf (c :: cs) || charsContain needle cs

/-- Python substring membership: needle in hay. -/
def strIn (needle hay : String) : Bool := charsContain needle.toList hay.toList

/-- Python str.strip with no argument: drop leading and trailing
whitespace (modelled with the ASCII whitespace set; the source and the
spec-side definitions below share this function, so the comparison is
unaffected). -/
def pyStrip (s : String) : String :=
  String.mk (((s.toList.dropWhile Char.isWhitespace).reverse.dropWhile Char.isWhitespace).reverse)

/-- Python str.split on a slash, last component: repo.split(sep) [-1]. -/
def lastSegment (s : String) : String := ((s.splitOn "/").getLastD s)

/- ---------------------------------------------------------------------
JSON layer: the GitHub API client (class GitHub of fetch_issues.py).
--------------------------------------------------------------------- -/

/-- A decoded JSON value, the possible results of json.loads in
GitHub.get. -/
inductive JsonVal where
  | jnull : JsonVal
  | jbool : Bool → JsonVal
  | jnum : Int → JsonVal
  | jstr : String → JsonVal
  | jarr : List JsonVal → JsonVal
  | jobj : List (String × JsonVal) → JsonVal

/-- Python truthiness of a decoded JSON value. -/
def pyTruthy : JsonVal → Bool
  | .jnull => false
  | .jbool b => b
  | .jnum n => n != 0
  | .jstr s => s != ""
  | .jarr l => !l.isEmpty
  | .jobj f => !f.isEmpty

/-- Python membership test (s in v) on a decoded JSON value: key lookup
for a dict, substring for a string, element equality for a list (a
non-string element never equals a string). On a number, boolean or null
Python raises TypeError; those cases are unreachable for well-formed API
data and are mapped to false. -/
def jsonHasMember (s : String) : JsonVal → Bool
  | .jobj fields => fields.any (fun f => f.1 == s)
  | .jstr t => strIn s t
  | .jarr items => items.any (fun v => match v with | .jstr t => t == s | _ => false)
  | _ => false

/-- Whether a decoded JSON value is a dict carrying the given key. -/
def jsonHasKey (s : String) : JsonVal → Bool
  | .jobj fields => fields.any (fun f => f.1 == s)
  | _ => false

/-- Outcome of one HTTP request issued by GitHub.get: a decoded JSON
body, an HTTPError with a status code, or any other exception (the
except Exception branch). -/
inductive HttpResult where
  | success : JsonVal → HttpResult
  | httpError : Nat → HttpResult
  | otherError : HttpResult

/-- GitHub.get of fetch_issues.py, as a function of the outcome of the
underlying request: the decoded body on success, and the empty list on
every HTTPError (403 with its rate-limit sleep, 404, and any other code)
and on every other caught exception. -/
def GitHub.get : HttpResult → JsonVal
  | .success v => v
  | .httpError _ => .jarr []
  | .otherError => .jarr []

/-- GitHub.get_repo_info: the body of GitHub.get, replaced by an empty
dict when falsy (the or-with-empty-dict of the source). -/
def GitHub.get_repo_info (r : HttpResult) : JsonVal :=
  let v := GitHub.get r
  if pyTruthy v then v else .jobj []

/-- GitHub.get_open_issues: the body of GitHub.get when it is a list,
with every item carrying a pull_request key removed; the empty list when
the body is not a list. -/
def GitHub.get_open_issues (r : HttpResult) : List JsonVal :=
  match GitHub.get r with
  | .jarr items => items.filter (fun i => !(jsonHasMember "pull_request" i))
  | _ => []

/- ---------------------------------------------------------------------
Schema layer: issue records and their classification
(fetch_issues.py, constants and functions classify_issue and
process_issue).
--------------------------------------------------------------------- -/

/-- Environment supplied by the datetime library: the current UTC time
as an ISO string, and the is-new test applied to a non-empty created_at
string (it models parsing by fromisoformat after replacing a Z suffix
and comparing against now minus LOOKBACK_DAYS_NEW days, with a
ValueError leaving the flag false). -/
structure Env where
  nowIso : String
  isNewOf : String → Bool

/-- MAX_ISSUES_PER_REPO of fetch_issues.py. -/
def MAX_ISSUES_PER_REPO : Nat := 30

/-- LOOKBACK_DAYS_NEW of fetch_issues.py. -/
def LOOKBACK_DAYS_NEW : Nat := 7

/-- GOOD_FIRST_ISSUE_LABELS of fetch_issues.py. -/
def GOOD_FIRST_ISSUE_LABELS : List String :=
  ["good first issue", "good-first-issue", "easy", "beginner",
   "starter", "first-timers-only", "help wanted", "up-for-grabs"]

/-- The user object of a raw GitHub issue; either field may be absent. -/
structure RawUser where
  login : Option String
  avatar_url : Option String

/-- A raw GitHub issue as decoded from the API, restricted to the keys
the scripts read. Keys read by subscript (id, number, title, html_url)
are required fields; keys read with a default are Option fields, where
none covers an absent key (and for body also a null value, which the
or-default of the source maps to the empty string as well). Each entry
of labels is the name field of one label dict, absent when that dict has
no name key. The pull_request field records whether the raw dict carries
a pull_request key. -/
structure RawIssue where
  id : Int
  number : Int
  title : String
  html_url : String
  user : Option RawUser
  created_at : Option String
  updated_at : Option String
  comments : Option Int
  labels : Option (List (Option String))
  body : Option String
  pull_request : Bool

/-- Result of classify_issue. -/
structure Classification where
  priority : String
  is_bug : Bool
  is_feature : Bool
  is_security : Bool
  is_good_first_issue : Bool
  is_help_wanted : Bool

/-- classify_issue of fetch_issues.py. -/
def classify_issue (labels : List String) : Classification :=
  let lower := labels.map pyLower
  let is_bug := lower.any (fun l => ["bug", "defect", "error", "regression"].any (fun x => strIn x l))
  let is_feature := lower.any (fun l => ["enhancement", "feature", "proposal"].any (fun x => strIn x l))
  let is_security := lower.any (fun l => ["security", "vulnerability", "cve"].any (fun x => strIn x l))
  let is_good_first := lower.any (fun l => GOOD_FIRST_ISSUE_LABELS.any (fun x => strIn x l))
  let is_help_wanted := lower.any (fun l => strIn "help wanted" l || strIn "help-wanted" l)
  let priority :=
    if is_security then "critical"
    else if is_bug then "high"
    else if is_feature then "medium"
    else "low"
  { priority := priority,
    is_bug := is_bug,
    is_feature := is_feature,
    is_security := is_security,
    is_good_first_issue := is_good_first,
    is_help_wanted := is_help_wanted }

/-- A processed issue record, the dict built by process_issue. -/
structure Issue where
  id : Int
  repo : String
  category : String
  category_label : String
  number : Int
  title : String
  url : String
  author : String
  author_avatar : String
  created_at : String
  updated_at : String
  comments : Int
  labels : List String
  body_preview : String
  is_new : Bool
  priority : String
  is_bug : Bool
  is_feature : Bool
  is_security : Bool
  is_good_first_issue : Bool
  is_help_wanted : Bool

/-- process_issue of fetch_issues.py. -/
def process_issue (env : Env) (raw : RawIssue) (repo category category_label : String) : Issue :=
  let labels := (raw.labels.getD []).map (fun l => l.getD "")
  let created := raw.created_at.getD ""
  let classification := classify_issue labels
  let is_new := if created = "" then false else env.isNewOf created
  let body := raw.body.getD ""
  let preview0 := pyStrip (pyReplaceChar (pySlice body 400) '\n' ' ')
  let preview := if body.length > 400 then preview0 ++ "..." else preview0
  { id := raw.id,
    repo := repo,
    category := category,
    category_label := category_label,
    number := raw.number,
    title := raw.title,
    url := raw.html_url,
    author := (match raw.user with | none => "unknown" | some u => u.login.getD "unknown"),
    author_avatar := (match raw.user with | none => "" | some u => u.avatar_url.getD ""),
    created_at := created,
    updated_at := raw.updated_at.getD "",
    comments := raw.comments.getD 0,
    labels := labels,
    body_preview := preview,
    is_new := is_new,
    priority := classification.priority,
    is_bug := classification.is_bug,
    is_feature := classification.is_feature,
    is_security := classification.is_security,
    is_good_first_issue := classification.is_good_first_issue,
    is_help_wanted := classification.is_help_wanted }

/- ---------------------------------------------------------------------
fetch_all of fetch_issues.py: configuration, per-repository inputs,
the main loop and the aggregate statistics.
--------------------------------------------------------------------- -/

/-- One category entry of data/repos.json as the scripts read it: the
label, icon and repos keys are read by subscript in fetch_all; the
description key is read with an empty default in build_site (an absent
key is modelled as the empty string). -/
structure CatData where
  label : String
  icon : String
  description : String
  repos : List String

/-- The categories object of data/repos.json, in insertion order. -/
structure Config where
  categories : List (String × CatData)

/-- The de-duplication pass of fetch_all: the repo_to_category dict as
an insertion-ordered list of (repo, category key, category label),
keeping the first category in which a repo appears. Its left projection
is unique_repos. -/
def repo_to_category (cfg : Config) : List (String × String × String) :=
  cfg.categories.foldl (fun acc p =>
    p.2.repos.foldl (fun acc2 r =>
      if acc2.any (fun q => q.1 == r) then acc2 else acc2 ++ [(r, p.1, p.2.label)]) acc) []

/-- The repo info dict returned by the API for one repository,
restricted to the keys fetch_all reads; each may be absent. -/
structure RepoInfo where
  open_issues_count : Option Int
  stargazers_count : Option Int
  forks_count : Option Int
  description : Option String

/-- Decoded per-repository network input of one run of fetch_all, the
result of the two requests issued for a repository. rawItems is the
decoded body of the issues request: none when it is not a list, some
items when it is (so an error reply, which GitHub.get turns into an
empty list, is some of the empty list). info is the result of
get_repo_info: some of a dict, or none when it is not a dict (the
isinstance test of the source). -/
structure RepoFetch where
  rawItems : Option (List RawIssue)
  info : Option RepoInfo

/-- GitHub.get_open_issues at the schema layer: the decoded items with
pull requests removed, or the empty list for a non-list body. -/
def open_issues_of (f : RepoFetch) : List RawIssue :=
  match f.rawItems with
  | none => []
  | some items => items.filter (fun i => !i.pull_request)

/-- The per-repository network input observed when both requests for a
repository fail: GitHub.get returns an empty list for the issues
request, and get_repo_info returns an empty dict. -/
def errorRepoFetch : RepoFetch :=
  { rawItems := some [], info := some ⟨none, none, none, none⟩ }

/-- The per-repository entry of repo_stats built inside the loop of
fetch_all. -/
structure RepoStats where
  category : String
  category_label : String
  total_open_issues : Int
  stars : Int
  forks : Int
  description : String
  fetched_issues : Nat
  new_issues : Nat
  bugs : Nat
  features : Nat
  good_first_issues : Nat
  help_wanted : Nat

/-- The repo_stats entry for one repository, from the loop body of
fetch_all (the isinstance-guarded reads of repo_info and the per-repo
counts over the processed records). -/
def mkRepoStats (cat_key cat_label : String) (info : Option RepoInfo)
    (processed : List Issue) : RepoStats :=
  { category := cat_key,
    category_label := cat_label,
    total_open_issues :=
      match info with
      | some inf => inf.open_issues_count.getD (processed.length : Int)
      | none => (processed.length : Int),
    stars := (match info with | some inf => inf.stargazers_count.getD 0 | none => 0),
    forks := (match info with | some inf => inf.forks_count.getD 0 | none => 0),
    description := (match info with | some inf => inf.description.getD "" | none => ""),
    fetched_issues := processed.length,
    new_issues := processed.countP (fun i => i.is_new),
    bugs := processed.countP (fun i => i.is_bug),
    features := processed.countP (fun i => i.is_feature),
    good_first_issues := processed.countP (fun i => i.is_good_first_issue),
    help_wanted := processed.countP (fun i => i.is_help_wanted) }

/-- The by_priority object of stats. -/
structure ByPriority where
  critical : Nat
  high : Nat
  medium : Nat
  low : Nat

/-- One by_category entry of stats. -/
structure CatStats where
  label : String
  icon : String
  total_repos : Nat
  total_issues : Nat
  new_issues : Nat
  good_first_issues : Nat

/-- The stats dict written to data/stats.json. -/
structure Stats where
  generated_at : String
  lookback_days_new : Nat
  total_repos : Nat
  total_issues_fetched : Nat
  total_new_issues : Nat
  total_bugs : Nat
  total_features : Nat
  total_security : Nat
  total_good_first_issues : Nat
  total_help_wanted : Nat
  by_priority : ByPriority
  by_category : List (String × CatStats)
  repos : List (String × RepoStats)

/-- The in-memory results of one run of fetch_all. -/
structure FetchOutput where
  all_issues : List Issue
  issues_by_repo : List (String × List Issue)
  stats : Stats

/-- The processed records of one repository entry of repo_to_category:
process_issue mapped over the fetched raw issues of that repository. -/
def processedFor (env : Env) (fetch : String → RepoFetch)
    (e : String × String × String) : List Issue :=
  (open_issues_of (fetch e.1)).map (fun r => process_issue env r e.1 e.2.1 e.2.2)

/-- The body of the main loop of fetch_all: extend all_issues, record
the issues_by_repo entry, record the repo_stats entry. -/
def fetchStep (env : Env) (fetch : String → RepoFetch)
    (acc : List Issue × List (String × List Issue) × List (String × RepoStats))
    (e : String × String × String) :
    List Issue × List (String × List Issue) × List (String × RepoStats) :=
  let processed := processedFor env fetch e
  (acc.1 ++ processed,
   acc.2.1 ++ [(e.1, processed)],
   acc.2.2 ++ [(e.1, mkRepoStats e.2.1 e.2.2 (fetch e.1).info processed)])

/-- fetch_all of fetch_issues.py: the loop over unique_repos followed by
the aggregate stats (sums of indicator comprehensions become countP,
len of a filtering comprehension becomes length of filter). -/
def fetch_all (env : Env) (cfg : Config) (fetch : String → RepoFetch) : FetchOutput :=
  let rtc := repo_to_category cfg
  let r := rtc.foldl (fetchStep env fetch) ([], [], [])
  let all_issues := r.1
  { all_issues := all_issues,
    issues_by_repo := r.2.1,
    stats :=
    { generated_at := env.nowIso,
      lookback_days_new := LOOKBACK_DAYS_NEW,
      total_repos := rtc.length,
      total_issues_fetched := all_issues.length,
      total_new_issues := all_issues.countP (fun i => i.is_new),
      total_bugs := all_issues.countP (fun i => i.is_bug),
      total_features := all_issues.countP (fun i => i.is_feature),
      total_security := all_issues.countP (fun i => i.is_security),
      total_good_first_issues := all_issues.countP (fun i => i.is_good_first_issue),
      total_help_wanted := all_issues.countP (fun i => i.is_help_wanted),
      by_priority :=
      { critical := all_issues.countP (fun i => i.priority == "critical"),
        high := all_issues.countP (fun i => i.priority == "high"),
        medium := all_issues.countP (fun i => i.priority == "medium"),
        low := all_issues.countP (fun i => i.priority == "low") },
      by_category := cfg.categories.map (fun p =>
        let cat_issues := all_issues.filter (fun i => i.category == p.1)
        (p.1,
         { label := p.2.label,
           icon := p.2.icon,
           total_repos := p.2.repos.length,
           total_issues := cat_issues.length,
           new_issues := cat_issues.countP (fun i => i.is_new),
           good_first_issues := cat_issues.countP (fun i => i.is_good_first_issue) })),
      repos := r.2.2 } }

/- ---------------------------------------------------------------------
build_site.py: sorting, rendering, and the output files.
--------------------------------------------------------------------- -/

/-- The priority_order dict of build_site.py. -/
def priority_order : List (String × Nat) :=
  [("critical", 0), ("high", 1), ("medium", 2), ("low", 3)]

/-- The sort key of build_site.py: newness rank (0 for a new issue,
1 otherwise), the priority_order rank with default 4, and the
created_at string. -/
def sortKeyOf (i : Issue) : Nat × Nat × String :=
  ((if i.is_new then 0 else 1), (priority_order.lookup i.priority).getD 4, i.created_at)

/-- The sort key viewed in the lexicographic order that Python tuple
comparison induces; string comparison is by code points on both sides. -/
def keyLex (k : Nat × Nat × String) : Lex (Nat × Lex (Nat × String)) :=
  toLex (k.1, toLex (k.2.1, k.2.2))

/-- Non-strict comparison of two issues by their sort key; a stable sort
by this relation is exactly the Python sorted call of build_site.py. -/
def issueLe (a b : Issue) : Bool := decide (keyLex (sortKeyOf a) ≤ keyLex (sortKeyOf b))

/-- The sorted_issues list of build_site.py (sorted is a stable sort, as
is mergeSort). -/
def sorted_issues (l : List Issue) : List Issue := l.mergeSort issueLe

/-- The display_issues list of build_site.py: the first 500 sorted
issues. -/
def display_issues (l : List Issue) : List Issue := (sorted_issues l).take 500

/-- One label span of an issue row, with its computed CSS class. -/
structure LabelSpan where
  cls : String
  label : String

/-- The label span for one label of an issue row. -/
def mkLabelSpan (label : String) : LabelSpan :=
  let label_lower := pyLower label
  let cls :=
    if ["bug", "defect"].any (fun k => strIn k label_lower) then "label label-bug"
    else if ["enhancement", "feature"].any (fun k => strIn k label_lower) then "label label-feature"
    else if ["good first", "beginner", "easy"].any (fun k => strIn k label_lower) then "label label-gfi"
    else if ["security", "vulnerability"].any (fun k => strIn k label_lower) then "label label-security"
    else if ["help wanted"].any (fun k => strIn k label_lower) then "label label-help"
    else "label"
  { cls := cls, label := label }

/-- The dynamic content of one row of the issue table. -/
structure IssueRow where
  category : String
  priority : String
  dataNew : Bool
  dataGfi : Bool
  repo : String
  priorityDot : String
  newTag : Bool
  url : String
  title : String
  number : Int
  author : String
  comments : Int
  labelSpans : List LabelSpan
  category_label : String
  dateDisplay : String

/-- One issue row of build_site.py, from one displayed issue. -/
def mkIssueRow (iss : Issue) : IssueRow :=
  { category := iss.category,
    priority := iss.priority,
    dataNew := iss.is_new,
    dataGfi := iss.is_good_first_issue,
    repo := iss.repo,
    priorityDot := (([("critical", "🔴"), ("high", "🟠"), ("medium", "🟡"), ("low", "🟢")].lookup iss.priority).getD "⚪"),
    newTag := iss.is_new,
    url := iss.url,
    title := iss.title,
    number := iss.number,
    author := iss.author,
    comments := iss.comments,
    labelSpans := (iss.labels.take 3).map mkLabelSpan,
    category_label := iss.category_label,
    dateDisplay := pySlice iss.created_at 10 }

/-- The dynamic content of one category card. -/
structure CatCard where
  key : String
  icon : String
  name : String
  desc : String
  numRepos : Nat
  totalIssues : Nat
  newIssues : Nat
  gfiIssues : Nat

/-- The category card of build_site.py for one configured category. -/
def mkCatCard (stats : Stats) (p : String × CatData) : CatCard :=
  let cs := stats.by_category.lookup p.1
  { key := p.1,
    icon := p.2.icon,
    name := p.2.label,
    desc := p.2.description,
    numRepos := (match cs with | some c => c.total_repos | none => p.2.repos.length),
    totalIssues := (match cs with | some c => c.total_issues | none => 0),
    newIssues := (match cs with | some c => c.new_issues | none => 0),
    gfiIssues := (match cs with | some c => c.good_first_issues | none => 0) }

/-- The dynamic content of one bar of the top-repos chart; the bar width
of the source is a float derived from these counts and is not modelled
separately. -/
structure TopRepoRow where
  repoShort : String
  count : Int

/-- The dynamic content interpolated into the rendered index.html; the
surrounding markup of the source template is constant, so page equality
is content equality. -/
structure Page where
  generatedAtDisplay : String
  totalRepos : Nat
  totalIssuesFetched : Nat
  totalNewIssues : Nat
  totalGoodFirstIssues : Nat
  totalBugs : Nat
  totalFeatures : Nat
  categoryCards : List CatCard
  topRepos : List TopRepoRow
  issueRows : List IssueRow

/-- The placeholder stats used by build_site.py when data/stats.json is
missing (its dict carries no lookback key; nothing reads that field, and
it is set to 0 here). -/
def placeholderStats (env : Env) : Stats :=
  { generated_at := env.nowIso,
    lookback_days_new := 0,
    total_repos := 108,
    total_issues_fetched := 0,
    total_new_issues := 0,
    total_bugs := 0,
    total_features := 0,
    total_security := 0,
    total_good_first_issues := 0,
    total_help_wanted := 0,
    by_priority := { critical := 0, high := 0, medium := 0, low := 0 },
    by_category := [],
    repos := [] }

/-- The top_repos list of build_site.py: repo_stats entries sorted by
descending total_open_issues (stable, as Python sorted with reverse),
first fifteen, each reduced to its short repo name and count. -/
def topReposOf (stats : Stats) : List TopRepoRow :=
  ((stats.repos.mergeSort
      (fun a b => decide (b.2.total_open_issues ≤ a.2.total_open_issues))).take 15).map
    (fun p => { repoShort := lastSegment p.1, count := p.2.total_open_issues })

/-- The rendered page of build_site.py as a function of the loaded
stats, loaded issues and the categories of repos.json. -/
def render_page (stats : Stats) (all_issues : List Issue) (cfg : Config) : Page :=
  let ga := stats.generated_at
  { generatedAtDisplay := if ga.length > 10 then pyReplaceChar (pySlice ga 16) 'T' ' ' ++ " UTC" else ga,
    totalRepos := stats.total_repos,
    totalIssuesFetched := stats.total_issues_fetched,
    totalNewIssues := stats.total_new_issues,
    totalGoodFirstIssues := stats.total_good_first_issues,
    totalBugs := stats.total_bugs,
    totalFeatures := stats.total_features,
    categoryCards := cfg.categories.map (mkCatCard stats),
    topRepos := topReposOf stats,
    issueRows := (display_issues all_issues).map mkIssueRow }

/-- The flat output files of the pipeline; repos.json is configuration,
not an output, and is a separate input of both scripts. none is a
missing file. -/
structure FS where
  issuesJson : Option (List Issue)
  statsJson : Option Stats
  byRepoJson : Option (List (String × List Issue))
  indexHtml : Option Page

/-- The write phase of fetch_all: open each data file in write mode and
replace its content with the values of this run. -/
def fetch_run (env : Env) (cfg : Config) (fetch : String → RepoFetch) (fs : FS) : FS :=
  let out := fetch_all env cfg fetch
  { fs with
    issuesJson := some out.all_issues,
    statsJson := some out.stats,
    byRepoJson := some out.issues_by_repo }

/-- build_site of build_site.py: load stats.json (placeholder when
missing), load issues.json (empty list when missing or not a list),
render, and write index.html in write mode. -/
def build_site (env : Env) (cfg : Config) (fs : FS) : FS :=
  let stats := fs.statsJson.getD (placeholderStats env)
  let all_issues := fs.issuesJson.getD []
  { fs with indexHtml := some (render_page stats all_issues cfg) }

/-- One full run of the two-step pipeline: fetch then render. -/
def pipeline (env : Env) (cfg : Config) (fetch : String → RepoFetch) (fs : FS) : FS :=
  build_site env cfg (fetch_run env cfg fetch fs)

/- ---------------------------------------------------------------------
Helper lemmas about the main loop of fetch_all.
--------------------------------------------------------------------- -/

theorem foldl_fetchStep (env : Env) (fetch : String → RepoFetch)
    (rtc : List (String × String × String)) :
    ∀ (a : List Issue) (b : List (String × List Issue)) (c : List (String × RepoStats)),
    rtc.foldl (fetchStep env fetch) (a, b, c) =
      (a ++ rtc.flatMap (processedFor env fetch),
       b ++ rtc.map (fun e => (e.1, processedFor env fetch e)),
       c ++ rtc.map (fun e => (e.1, mkRepoStats e.2.1 e.2.2 (fetch e.1).info (processedFor env fetch e)))) := by
  induction rtc with
  | nil => intro a b c; simp
  | cons e rest ih =>
    intro a b c
    simp only [List.foldl_cons, fetchStep, List.flatMap_cons, List.map_cons]
    rw [ih]
    simp [List.append_assoc]

theorem fetch_all_all_issues (env : Env) (cfg : Config) (fetch : String → RepoFetch) :
    (fetch_all env cfg fetch).all_issues
      = (repo_to_category cfg).flatMap (processedFor env fetch) := by
  simp [fetch_all, foldl_fetchStep]

theorem fetch_all_issues_by_repo (env : Env) (cfg : Config) (fetch : String → RepoFetch) :
    (fetch_all env cfg fetch).issues_by_repo
      = (repo_to_category cfg).map (fun e => (e.1, processedFor env fetch e)) := by
  simp [fetch_all, foldl_fetchStep]

theorem fetch_all_stats_repos (env : Env) (cfg : Config) (fetch : String → RepoFetch) :
    (fetch_all env cfg fetch).stats.repos
      = (repo_to_category cfg).map
          (fun e => (e.1, mkRepoStats e.2.1 e.2.2 (fetch e.1).info (processedFor env fetch e))) := by
  simp [fetch_all, foldl_fetchStep]

/- ---------------------------------------------------------------------
Claim theorems.
--------------------------------------------------------------------- -/

/-- C2: for every list of labels, each classification flag is set exactly
when some label, lowercased, contains one of that flag's keywords as a
substring, and the derived priority is the stated function of the
security, bug and feature flags. -/
theorem classify_issue_flags_and_priority (labels : List String) :
    (classify_issue labels).is_bug
      = labels.any (fun lab => ["bug", "defect", "error", "regression"].any (fun k => strIn k (pyLower lab))) ∧
    (classify_issue labels).is_feature
      = labels.any (fun lab => ["enhancement", "feature", "proposal"].any (fun k => strIn k (pyLower lab))) ∧
    (classify_issue labels).is_security
      = labels.any (fun lab => ["security", "vulnerability", "cve"].any (fun k => strIn k (pyLower lab))) ∧
    (classify_issue labels).is_good_first_issue
      = labels.any (fun lab => GOOD_FIRST_ISSUE_LABELS.any (fun k => strIn k (pyLower lab))) ∧
    (classify_issue labels).is_help_wanted
      = labels.any (fun lab => ["help wanted", "help-wanted"].any (fun k => strIn k (pyLower lab))) ∧
    (classify_issue labels).priority
      = (if (classify_issue labels).is_security then "critical"
         else if (classify_issue labels).is_bug then "high"
         else if (classify_issue labels).is_feature then "medium"
         else "low") := by
  refine ⟨?_, ?_, ?_, ?_, ?_, rfl⟩ <;>
    simp [classify_issue, List.any_map, Function.comp_def]

/-- The body preview as the claim states it, as a function of the body
value of the raw issue (none for an absent or null body). -/
def body_preview_spec (body : Option String) : String :=
  match body with
  | none => ""
  | some s =>
    let p := pyStrip (pyReplaceChar (pySlice s 400) '\n' ' ')
    if s.length > 400 then p ++ "..." else p

/-- C5: the body_preview of every processed record is the first 400
characters of the body with newlines replaced by spaces and surrounding
whitespace stripped, with three dots appended exactly when the body is
longer than 400 characters, and the empty string for an absent or null
body. -/
theorem body_preview_correct (env : Env) (raw : RawIssue) (repo cat catl : String) :
    (process_issue env raw repo cat catl).body_preview = body_preview_spec raw.body := by
  rcases hb : raw.body with _ | s
  · simp [process_issue, body_preview_spec, hb, pyStrip]
    decide
  · simp [process_issue, body_preview_spec, hb]

/-- C9: every element of the list returned by get_open_issues lacks a
pull_request key (the filter removes the pull requests of the response),
and a non-list response body yields the empty list. -/
theorem get_open_issues_filters_prs :
    (∀ r : HttpResult,
      (GitHub.get_open_issues r).all (fun i => !(jsonHasKey "pull_request" i)) = true) ∧
    (∀ fields, GitHub.get_open_issues (.success (.jobj fields)) = []) ∧
    (∀ s, GitHub.get_open_issues (.success (.jstr s)) = []) ∧
    (∀ n, GitHub.get_open_issues (.success (.jnum n)) = []) ∧
    (∀ b, GitHub.get_open_issues (.success (.jbool b)) = []) ∧
    GitHub.get_open_issues (.success .jnull) = [] := by
  refine ⟨?_, fun _ => rfl, fun _ => rfl, fun _ => rfl, fun _ => rfl, rfl⟩
  intro r
  rw [List.all_eq_true]
  intro i hi
  unfold GitHub.get_open_issues at hi
  revert hi
  split
  · intro hi
    have hmem := (List.mem_filter.mp hi).2
    cases i <;> simp_all [jsonHasMember, jsonHasKey] <;> try assumption
  · intro hi
    exact absurd hi (List.not_mem_nil i)

/-- C8: GitHub.get maps every HTTPError (403 and 404 included) and every
other caught failure to an empty list, so the failing repository
contributes an empty issue list and an empty repo info dict, and in
fetch_all replacing the responses of one repository by the failure
responses only empties that repository's entry of issues_by_repo,
leaving every other repository's processed records unchanged. -/
theorem github_get_error_handling :
    (∀ code, GitHub.get (.httpError code) = .jarr []) ∧
    (GitHub.get .otherError = .jarr []) ∧
    (∀ code, GitHub.get_open_issues (.httpError code) = []) ∧
    (GitHub.get_open_issues .otherError = []) ∧
    (∀ code, GitHub.get_repo_info (.httpError code) = .jobj []) ∧
    (GitHub.get_repo_info .otherError = .jobj []) ∧
    (∀ (env : Env) (cfg : Config) (fetch : String → RepoFetch) (r0 : String),
      (fetch_all env cfg (fun r => if r = r0 then errorRepoFetch else fetch r)).issues_by_repo
        = (fetch_all env cfg fetch).issues_by_repo.map
            (fun p => if p.1 = r0 then (p.1, ([] : List Issue)) else p)) := by
  refine ⟨fun _ => rfl, rfl, fun _ => rfl, rfl, fun _ => rfl, rfl, ?_⟩
  intro env cfg fetch r0
  rw [fetch_all_issues_by_repo, fetch_all_issues_by_repo, List.map_map]
  apply List.map_congr_left
  intro e _
  by_cases h : e.1 = r0 <;>
    simp [processedFor, open_issues_of, errorRepoFetch, h, Function.comp_def]

/-- C6: the contents of the four output files after a full run of the
pipeline are independent of the pre-existing output files: two runs over
the same fetched data, configuration and clock but different prior
file-system states produce identical output files, because each run
fully rewrites issues.json, stats.json and issues_by_repo.json from the
fetched data and index.html from the just-written values. -/
theorem pipeline_ignores_prior_output (env : Env) (cfg : Config)
    (fetch : String → RepoFetch) (fs1 fs2 : FS) :
    pipeline env cfg fetch fs1 = pipeline env cfg fetch fs2 := rfl

/-- C7: records are never modified after process_issue produces them:
the issue lists written to issues.json and issues_by_repo.json are
exactly the processed records of the run (process_issue mapped over each
repository's fetched issues, concatenated in repository order), and
build_site only reads the three data files, leaving their contents
untouched while writing index.html. -/
theorem records_immutable (env : Env) (cfg : Config)
    (fetch : String → RepoFetch) (fs : FS) :
    (fetch_all env cfg fetch).issues_by_repo
        = (repo_to_category cfg).map (fun e => (e.1, processedFor env fetch e)) ∧
    (fetch_all env cfg fetch).all_issues
        = (repo_to_category cfg).flatMap (processedFor env fetch) ∧
    (fetch_run env cfg fetch fs).issuesJson = some (fetch_all env cfg fetch).all_issues ∧
    (fetch_run env cfg fetch fs).byRepoJson = some (fetch_all env cfg fetch).issues_by_repo ∧
    (fetch_run env cfg fetch fs).statsJson = some (fetch_all env cfg fetch).stats ∧
    (build_site env cfg fs).issuesJson = fs.issuesJson ∧
    (build_site env cfg fs).statsJson = fs.statsJson ∧
    (build_site env cfg fs).byRepoJson = fs.byRepoJson :=
  ⟨fetch_all_issues_by_repo env cfg fetch, fetch_all_all_issues env cfg fetch,
   rfl, rfl, rfl, rfl, rfl, rfl⟩

/-- C1: in every run, each per-repo aggregate count of repo_stats equals
the count of that repository's processed records satisfying the
corresponding flag (and fetched_issues their number), and each global
total of the aggregate stats, including every per-category count, equals
the corresponding count over the full processed issue list of the run. -/
theorem fetch_all_counts_match (env : Env) (cfg : Config) (fetch : String → RepoFetch) :
    List.Forall₂ (fun (pb : String × List Issue) (ps : String × RepoStats) =>
        ps.1 = pb.1 ∧
        ps.2.fetched_issues = pb.2.length ∧
        ps.2.new_issues = pb.2.countP (fun i => i.is_new) ∧
        ps.2.bugs = pb.2.countP (fun i => i.is_bug) ∧
        ps.2.features = pb.2.countP (fun i => i.is_feature) ∧
        ps.2.good_first_issues = pb.2.countP (fun i => i.is_good_first_issue) ∧
        ps.2.help_wanted = pb.2.countP (fun i => i.is_help_wanted))
      (fetch_all env cfg fetch).issues_by_repo (fetch_all env cfg fetch).stats.repos ∧
    (fetch_all env cfg fetch).all_issues
      = (fetch_all env cfg fetch).issues_by_repo.flatMap (fun p => p.2) ∧
    (fetch_all env cfg fetch).stats.total_issues_fetched
      = (fetch_all env cfg fetch).all_issues.length ∧
    (fetch_all env cfg fetch).stats.total_new_issues
      = (fetch_all env cfg fetch).all_issues.countP (fun i => i.is_new) ∧
    (fetch_all env cfg fetch).stats.total_bugs
      = (fetch_all env cfg fetch).all_issues.countP (fun i => i.is_bug) ∧
    (fetch_all env cfg fetch).stats.total_features
      = (fetch_all env cfg fetch).all_issues.countP (fun i => i.is_feature) ∧
    (fetch_all env cfg fetch).stats.total_security
      = (fetch_all env cfg fetch).all_issues.countP (fun i => i.is_security) ∧
    (fetch_all env cfg fetch).stats.total_good_first_issues
      = (fetch_all env cfg fetch).all_issues.countP (fun i => i.is_good_first_issue) ∧
    (fetch_all env cfg fetch).stats.total_help_wanted
      = (fetch_all env cfg fetch).all_issues.countP (fun i => i.is_help_wanted) ∧
    List.Forall₂ (fun (p : String × CatData) (q : String × CatStats) =>
        q.1 = p.1 ∧
        q.2.total_issues
          = (fetch_all env cfg fetch).all_issues.countP (fun i => i.category == p.1) ∧
        q.2.new_issues
          = (fetch_all env cfg fetch).all_issues.countP (fun i => i.is_new && i.category == p.1) ∧
        q.2.good_first_issues
          = (fetch_all env cfg fetch).all_issues.countP
              (fun i => i.is_good_first_issue && i.category == p.1))
      cfg.categories (fetch_all env cfg fetch).stats.by_category := by
  refine ⟨?_, ?_, rfl, rfl, rfl, rfl, rfl, rfl, rfl, ?_⟩
  · rw [fetch_all_issues_by_repo, fetch_all_stats_repos]
    rw [List.forall₂_map_left_iff, List.forall₂_map_right_iff, List.forall₂_same]
    intro e _
    exact ⟨rfl, rfl, rfl, rfl, rfl, rfl, rfl⟩
  · rw [fetch_all_issues_by_repo, fetch_all_all_issues, List.flatMap_map]
  · have hby : (fetch_all env cfg fetch).stats.by_category
        = cfg.categories.map (fun p =>
            let cat_issues :=
              (fetch_all env cfg fetch).all_issues.filter (fun i => i.category == p.1)
            (p.1,
             { label := p.2.label,
               icon := p.2.icon,
               total_repos := p.2.repos.length,
               total_issues := cat_issues.length,
               new_issues := cat_issues.countP (fun i => i.is_new),
               good_first_issues := cat_issues.countP (fun i => i.is_good_first_issue) })) := rfl
    rw [hby, List.forall₂_map_right_iff, List.forall₂_same]
    intro p _
    exact ⟨rfl, (List.countP_eq_length_filter _ _).symm,
           List.countP_filter _ _ _, List.countP_filter _ _ _⟩

theorem classify_priority_mem (labels : List String) :
    (classify_issue labels).priority ∈ (["critical", "high", "medium", "low"] : List String) := by
  unfold classify_issue
  dsimp only
  split
  · simp
  · split
    · simp
    · split <;> simp

theorem process_issue_priority_mem (env : Env) (raw : RawIssue) (repo cat catl : String) :
    (process_issue env raw repo cat catl).priority
      ∈ (["critical", "high", "medium", "low"] : List String) := by
  have h : (process_issue env raw repo cat catl).priority
      = (classify_issue ((raw.labels.getD []).map (fun l => l.getD ""))).priority := rfl
  rw [h]
  exact classify_priority_mem _

theorem countP_priority_partition (l : List Issue)
    (h : ∀ i ∈ l, i.priority ∈ (["critical", "high", "medium", "low"] : List String)) :
    l.countP (fun i => i.priority == "critical") + l.countP (fun i => i.priority == "high")
      + l.countP (fun i => i.priority == "medium") + l.countP (fun i => i.priority == "low")
      = l.length := by
  induction l with
  | nil => simp
  | cons a t ih =>
    have ha := h a (List.mem_cons_self a t)
    have ht := ih (fun i hi => h i (List.mem_cons_of_mem a hi))
    simp only [List.mem_cons, List.not_mem_nil, or_false] at ha
    rcases ha with h1 | h1 | h1 | h1 <;>
      simp [List.countP_cons, h1] <;> omega

/-- C3: every processed record's priority is one of critical, high,
medium, low, and hence the four by_priority counts of the aggregate
stats sum to total_issues_fetched in every run. -/
theorem priority_partition :
    (∀ (env : Env) (raw : RawIssue) (repo cat catl : String),
      (process_issue env raw repo cat catl).priority
        ∈ (["critical", "high", "medium", "low"] : List String)) ∧
    (∀ (env : Env) (cfg : Config) (fetch : String → RepoFetch),
      (fetch_all env cfg fetch).stats.by_priority.critical
        + (fetch_all env cfg fetch).stats.by_priority.high
        + (fetch_all env cfg fetch).stats.by_priority.medium
        + (fetch_all env cfg fetch).stats.by_priority.low
        = (fetch_all env cfg fetch).stats.total_issues_fetched) := by
  constructor
  · intro env raw repo cat catl
    exact process_issue_priority_mem env raw repo cat catl
  · intro env cfg fetch
    have hall : ∀ i ∈ (fetch_all env cfg fetch).all_issues,
        i.priority ∈ (["critical", "high", "medium", "low"] : List String) := by
      intro i hi
      rw [fetch_all_all_issues] at hi
      rcases List.mem_flatMap.mp hi with ⟨e, _, hmem⟩
      rcases List.mem_map.mp hmem with ⟨raw, _, rfl⟩
      exact process_issue_priority_mem env raw e.1 e.2.1 e.2.2
    exact countP_priority_partition _ hall

theorem length_flatMap_le {α β : Type} (l : List α) (f : α → List β) (k : Nat)
    (h : ∀ x ∈ l, (f x).length ≤ k) : (l.flatMap f).length ≤ k * l.length := by
  induction l with
  | nil => simp
  | cons a t ih =>
    rw [List.flatMap_cons, List.length_append, List.length_cons, Nat.mul_succ]
    have h1 := h a (List.mem_cons_self a t)
    have h2 := ih (fun x hx => h x (List.mem_cons_of_mem a hx))
    omega

/-- C4: when every issues response holds at most the requested
MAX_ISSUES_PER_REPO items, each repository contributes at most
MAX_ISSUES_PER_REPO processed records (the pull-request filter only
shrinks the response), so the full issue list of a run has length at
most MAX_ISSUES_PER_REPO times the number of unique repositories. -/
theorem issues_bounded (env : Env) (cfg : Config) (fetch : String → RepoFetch)
    (h : ∀ r items, (fetch r).rawItems = some items → items.length ≤ MAX_ISSUES_PER_REPO) :
    (∀ pb ∈ (fetch_all env cfg fetch).issues_by_repo, pb.2.length ≤ MAX_ISSUES_PER_REPO) ∧
    (fetch_all env cfg fetch).all_issues.length
      ≤ MAX_ISSUES_PER_REPO * (repo_to_category cfg).length := by
  have hproc : ∀ e : String × String × String,
      (processedFor env fetch e).length ≤ MAX_ISSUES_PER_REPO := by
    intro e
    unfold processedFor open_issues_of
    rw [List.length_map]
    rcases hri : (fetch e.1).rawItems with _ | items
    · simp [hri, MAX_ISSUES_PER_REPO]
    · simp only [hri]
      calc (items.filter (fun i => !i.pull_request)).length
          ≤ items.length := List.length_filter_le _ _
        _ ≤ MAX_ISSUES_PER_REPO := h e.1 items hri
  constructor
  · intro pb hpb
    rw [fetch_all_issues_by_repo] at hpb
    rcases List.mem_map.mp hpb with ⟨e, _, rfl⟩
    exact hproc e
  · rw [fetch_all_all_issues]
    exact length_flatMap_le _ _ _ (fun e _ => hproc e)

/-- Concrete environment for the witness run. -/
def wEnv : Env := { nowIso := "2026-01-01T00:00:00+00:00", isNewOf := fun _ => false }

/-- Concrete one-category configuration for the witness run. -/
def wCfg : Config :=
  { categories :=
      [("web", { label := "Web", icon := "🌐", description := "Web frameworks",
                 repos := ["django/django"] })] }

/-- Concrete raw issue for the witness run. -/
def wRaw : RawIssue :=
  { id := 1, number := 5, title := "Sample", html_url := "https://example.org/1",
    user := none, created_at := none, updated_at := none, comments := none,
    labels := some [some "bug"], body := none, pull_request := false }

/-- Concrete network input for the witness run. -/
def wFetch : String → RepoFetch := fun _ => { rawItems := some [wRaw], info := none }

/-- Witness for C4 at the concrete one-repository run. -/
theorem issues_bounded_witness :
    (∀ pb ∈ (fetch_all wEnv wCfg wFetch).issues_by_repo, pb.2.length ≤ MAX_ISSUES_PER_REPO) ∧
    (fetch_all wEnv wCfg wFetch).all_issues.length
      ≤ MAX_ISSUES_PER_REPO * (repo_to_category wCfg).length :=
  issues_bounded wEnv wCfg wFetch (fun r items hri => by
    simp only [wFetch] at hri
    injection hri with hi
    subst hi
    decide)

theorem issueLe_trans : ∀ a b c : Issue, issueLe a b → issueLe b c → issueLe a c := by
  intro a b c hab hbc
  simp only [issueLe, decide_eq_true_eq] at hab hbc ⊢
  exact le_trans hab hbc

theorem issueLe_total : ∀ a b : Issue, issueLe a b || issueLe b a := by
  intro a b
  simp only [issueLe]
  rcases le_total (keyLex (sortKeyOf a)) (keyLex (sortKeyOf b)) with h | h <;> simp [h]

/-- C10: the rendered issue table is the displayed issue list (at most
500 rows), and the displayed list is ordered by the build_site sort key:
new issues before non-new ones, then by priority rank (critical, high,
medium, low, unknown last), then by ascending created_at string. -/
theorem issue_table_sorted_bounded (stats : Stats) (all_issues : List Issue) (cfg : Config) :
    (render_page stats all_issues cfg).issueRows = (display_issues all_issues).map mkIssueRow ∧
    (render_page stats all_issues cfg).issueRows.length ≤ 500 ∧
    (display_issues all_issues).Pairwise
      (fun a b => keyLex (sortKeyOf a) ≤ keyLex (sortKeyOf b)) := by
  refine ⟨rfl, ?_, ?_⟩
  · show ((display_issues all_issues).map mkIssueRow).length ≤ 500
    rw [List.length_map]
    exact List.length_take_le 500 (sorted_issues all_issues)
  · have hs : (sorted_issues all_issues).Pairwise (fun a b => issueLe a b) :=
      List.sorted_mergeSort issueLe_trans issueLe_total all_issues
    have ht : List.Sublist (display_issues all_issues) (sorted_issues all_issues) :=
      List.take_sublist 500 (sorted_issues all_issues)
    exact (List.Pairwise.sublist ht hs).imp
      (fun hab => by simpa [issueLe, decide_eq_true_eq] using hab)
